import Mathlib

/-!
Verification of the daemon supervisor in goweb (package `daemon`, the
consolidated implementation; the `daemon_manager` drafts are modelled
separately where a claim cites them).

The embedding is a shallow one: the PID file is an `Option (List Char)`
(`none` = file absent), and each operation is a function of the file state
and an environment record holding the outcome of every OS call the Go code
makes (spawn success, pipe-read outcome, signal results, liveness probes).
Each environment field corresponds to exactly one fallible call site in the
source, so the functions mirror the Go control flow deterministically.
-/

namespace Daemon

/-- File content, as a character list (Go `[]byte` / `string`). -/
abbrev Content := List Char

/-- The PID file state: `none` iff the file does not exist. -/
abbrev FS := Option Content

-- ## Decimal parsing / printing (models strconv.Atoi / strconv.Itoa)

/-- The decimal digit character for `n < 10` (ASCII `'0' + n`). -/
def digitChar (n : Nat) : Char := Char.ofNat (48 + n)

/-- Decimal representation of a natural number, most significant digit
first; mirrors the digit loop of `strconv.Itoa`. -/
def writeNat (n : Nat) : List Char :=
  if _h : n < 10 then [digitChar n]
  else writeNat (n / 10) ++ [digitChar (n % 10)]
termination_by n
decreasing_by
  exact Nat.div_lt_self (by omega) (by omega)

/-- `strconv.Itoa`: sign, then decimal digits of the magnitude. -/
def itoa (i : Int) : Content :=
  if i < 0 then '-' :: writeNat (-i).toNat else writeNat i.toNat

/-- Digit-accumulating loop of `strconv.Atoi`: consumes decimal digits,
failing on any non-digit character. -/
def goDigits : List Char → Nat → Option Nat
  | [], acc => some acc
  | c :: cs, acc =>
      if 48 ≤ c.toNat && c.toNat ≤ 57 then
        goDigits cs (acc * 10 + (c.toNat - 48))
      else none

/-- All-digits parse; empty input is an error (as in `strconv.Atoi`). -/
def digitsToNat (l : List Char) : Option Nat :=
  match l with
  | [] => none
  | _ :: _ => goDigits l 0

/-- `strconv.Atoi`: optional sign followed by at least one decimal digit;
anything else fails. -/
def atoi (l : List Char) : Option Int :=
  match l with
  | [] => none
  | c :: rest =>
      if c = '+' then (digitsToNat rest).map Int.ofNat
      else if c = '-' then (digitsToNat rest).map (fun n => -(n : Int))
      else (digitsToNat (c :: rest)).map Int.ofNat

/-- ASCII whitespace, as trimmed by `strings.TrimSpace` on the PID file's
ASCII content. -/
def isSpaceChar (c : Char) : Bool :=
  c.toNat = 32 || c.toNat = 9 || c.toNat = 10 ||
  c.toNat = 13 || c.toNat = 11 || c.toNat = 12

/-- `strings.TrimSpace`: drop whitespace from both ends. -/
def trimSpace (l : Content) : Content :=
  ((l.dropWhile isSpaceChar).reverse.dropWhile isSpaceChar).reverse

-- ## PID store (part_010: readPID / writePID / removePID)

/-- Errors of `readPID`. `notRunning` is Go's `ErrNotRunning`
(file absent); the other two are the distinct corruption errors. -/
inductive PidErr
  | notRunning
  | parseError
  | nonPositive
  deriving DecidableEq, Repr

/-- `DaemonManager.readPID`: absent file is `ErrNotRunning`; content that
does not parse with `strconv.Atoi` after trimming is a corruption error,
as is a parsed value `≤ 0`. -/
def readPID (fs : FS) : Except PidErr Int :=
  match fs with
  | none => .error .notRunning
  | some s =>
      match atoi (trimSpace s) with
      | none => .error .parseError
      | some pid => if pid ≤ 0 then .error .nonPositive else .ok pid

/-- `DaemonManager.writePID`: whole-file rewrite with `os.WriteFile`,
content `strconv.Itoa pid`. -/
def writePID (pid : Int) : FS := some (itoa pid)

/-- `DaemonManager.removePID`: `os.Remove` of the PID file. -/
def removePID : FS := none

-- ## Round-trip lemmas for the decimal layer

theorem digitChar_toNat {n : Nat} (h : n < 10) : (digitChar n).toNat = 48 + n := by
  interval_cases n <;> decide

theorem writeNat_ne_nil (n : Nat) : writeNat n ≠ [] := by
  rw [writeNat]
  split
  · simp
  · simp

theorem writeNat_all_digits (n : Nat) :
    ∀ c ∈ writeNat n, 48 ≤ c.toNat ∧ c.toNat ≤ 57 := by
  induction n using Nat.strong_induction_on with
  | _ n ih =>
    rw [writeNat]
    split
    · next h =>
      intro c hc
      simp only [List.mem_singleton] at hc
      subst hc
      rw [digitChar_toNat h]
      omega
    · next h =>
      intro c hc
      rw [List.mem_append] at hc
      rcases hc with hc | hc
      · exact ih (n / 10) (Nat.div_lt_self (by omega) (by omega)) c hc
      · simp only [List.mem_singleton] at hc
        subst hc
        rw [digitChar_toNat (Nat.mod_lt n (by omega))]
        have := Nat.mod_lt n (show 0 < 10 by omega)
        omega

theorem goDigits_append (l₁ l₂ : List Char) (acc : Nat) :
    goDigits (l₁ ++ l₂) acc = (goDigits l₁ acc).bind fun a => goDigits l₂ a := by
  induction l₁ generalizing acc with
  | nil => simp [goDigits]
  | cons c cs ih =>
    simp only [List.cons_append, goDigits]
    split
    · exact ih _
    · rfl

theorem goDigits_cons_digit (c : Char) (cs : List Char) (acc : Nat)
    (hc : 48 ≤ c.toNat ∧ c.toNat ≤ 57) :
    goDigits (c :: cs) acc = goDigits cs (acc * 10 + (c.toNat - 48)) := by
  have hb : (48 ≤ c.toNat && c.toNat ≤ 57) = true := by
    simp only [Bool.and_eq_true, decide_eq_true_eq]
    exact hc
  conv_lhs => rw [goDigits]
  rw [hb]
  simp

theorem goDigits_writeNat (n : Nat) :
    ∀ acc, goDigits (writeNat n) acc =
      some (acc * 10 ^ (writeNat n).length + n) := by
  induction n using Nat.strong_induction_on with
  | _ n ih =>
    intro acc
    rw [writeNat]
    split
    · next h =>
      rw [goDigits_cons_digit _ _ _ (by rw [digitChar_toNat h]; omega)]
      simp only [goDigits, digitChar_toNat h, List.length_singleton]
      congr 1
      omega
    · next h =>
      rw [goDigits_append]
      rw [ih (n / 10) (Nat.div_lt_self (by omega) (by omega)) acc]
      have hm : n % 10 < 10 := Nat.mod_lt n (by omega)
      rw [Option.some_bind]
      rw [goDigits_cons_digit _ _ _ (by rw [digitChar_toNat hm]; omega)]
      simp only [goDigits, digitChar_toNat hm, List.length_append,
        List.length_singleton]
      congr 1
      have hdiv : n / 10 * 10 + n % 10 = n := by omega
      have hsub : (48 + n % 10) - 48 = n % 10 := by omega
      rw [hsub, pow_succ]
      ring_nf
      omega

theorem digitsToNat_writeNat (n : Nat) : digitsToNat (writeNat n) = some n := by
  have hne := writeNat_ne_nil n
  have hgo := goDigits_writeNat n 0
  unfold digitsToNat
  match hw : writeNat n with
  | [] => exact absurd hw hne
  | c :: cs =>
    rw [hw] at hgo
    rw [hgo]
    simp

theorem dropWhile_of_head_not {p : Char → Bool} :
    ∀ l : List Char, (∀ c ∈ l, p c = false) → l.dropWhile p = l := by
  intro l h
  cases l with
  | nil => rfl
  | cons c cs =>
    rw [List.dropWhile_cons]
    rw [h c (List.mem_cons_self c cs)]
    simp

theorem trimSpace_of_no_space (l : Content)
    (h : ∀ c ∈ l, isSpaceChar c = false) : trimSpace l = l := by
  unfold trimSpace
  rw [dropWhile_of_head_not l h]
  rw [dropWhile_of_head_not l.reverse (by intro c hc; exact h c (List.mem_reverse.mp hc))]
  exact List.reverse_reverse l

theorem digit_not_space {c : Char} (h : 48 ≤ c.toNat ∧ c.toNat ≤ 57) :
    isSpaceChar c = false := by
  unfold isSpaceChar
  simp only [Bool.or_eq_false_iff, decide_eq_false_iff_not]
  omega

theorem atoi_writeNat (n : Nat) : atoi (writeNat n) = some (n : Int) := by
  have hd := writeNat_all_digits n
  have hne := writeNat_ne_nil n
  match hw : writeNat n with
  | [] => exact absurd hw hne
  | c :: cs =>
    rw [hw] at hd
    have hc : 48 ≤ c.toNat ∧ c.toNat ≤ 57 := hd c (List.mem_cons_self c cs)
    simp only [atoi]
    rw [if_neg (by intro he; subst he; simp at hc)]
    rw [if_neg (by intro he; subst he; simp at hc)]
    have : digitsToNat (c :: cs) = some n := by
      rw [← hw]; exact digitsToNat_writeNat n
    rw [this]
    rfl

theorem readPID_writePID (pid : Int) (h : 0 < pid) :
    readPID (writePID pid) = .ok pid := by
  unfold readPID writePID itoa
  rw [if_neg (by omega)]
  have htrim : trimSpace (writeNat pid.toNat) = writeNat pid.toNat :=
    trimSpace_of_no_space _ (fun c hc => digit_not_space (writeNat_all_digits _ c hc))
  simp only [htrim]
  rw [atoi_writeNat]
  have : (pid.toNat : Int) = pid := Int.toNat_of_nonneg (by omega)
  rw [this]
  simp only [show ¬ pid ≤ 0 by omega, if_false]

theorem readPID_removePID : readPID removePID = .error .notRunning := rfl

-- ## Configuration (part_010: Config / New)

/-- `Config` of package `daemon`: timeouts are `time.Duration` values
modelled as nanosecond counts. -/
structure Config where
  PIDFilePath : Content
  ReadyTimeout : Nat
  StopTimeout : Nat
  DaemonRunArgs : List Content
  HealthCheckURL : Content
  deriving DecidableEq, Repr

/-- `filepath.IsAbs` on Unix: the path starts with a slash. -/
def isAbs (p : Content) : Bool :=
  match p with
  | '/' :: _ => true
  | _ => false

/-- One constructor per `errors.New` site in `New`. -/
inductive ConfigErr
  | emptyPath
  | relPath
  | zeroReadyTimeout
  | zeroStopTimeout
  | emptyRunArgs
  | emptyHealthURL
  deriving DecidableEq, Repr

/-- The manager value built by `New`. -/
structure DaemonManager where
  config : Config
  lockFilePath : Content
  deriving DecidableEq, Repr

/-- `lockFileExt` constant, `".lock"`. -/
def lockFileExt : Content := ['.', 'l', 'o', 'c', 'k']

/-- `New`: eager validation of the configuration, in source order. -/
def New (cfg : Config) : Except ConfigErr DaemonManager :=
  if cfg.PIDFilePath = [] then .error .emptyPath
  else if !isAbs cfg.PIDFilePath then .error .relPath
  else if cfg.ReadyTimeout = 0 then .error .zeroReadyTimeout
  else if cfg.StopTimeout = 0 then .error .zeroStopTimeout
  else if cfg.DaemonRunArgs = [] then .error .emptyRunArgs
  else if cfg.HealthCheckURL = [] then .error .emptyHealthURL
  else .ok { config := cfg, lockFilePath := cfg.PIDFilePath ++ lockFileExt }

-- ## Liveness probe (part_010: IsPidAlive)

/-- Outcome of `process.Signal(syscall.Signal(0))`: success, the
`os.ErrProcessDone` case (recently exited), or any other error
(permissions and the like). -/
inductive ProbeRes
  | ok
  | processDone
  | otherErr
  deriving DecidableEq, Repr

/-- `IsPidAlive`: non-positive pids are dead, a `FindProcess` error is
dead, and the signal-0 probe must return no error at all (`err == nil`). -/
def IsPidAlive (pid : Int) (findOk : Bool) (probe : ProbeRes) : Bool :=
  if pid ≤ 0 then false
  else if !findOk then false
  else
    match probe with
    | .ok => true
    | .processDone => false
    | .otherErr => false

-- ## Readiness notification (part_010: NotifyReady)

/-- What `NotifyReady` did: the byte it wrote to the pipe, if any, and
whether it returned an error. -/
structure NotifyOutcome where
  written : Option Char
  errored : Bool
  deriving DecidableEq, Repr

/-- `NotifyReady`: if `os.NewFile(readyFD)` yields a pipe handle, write
the single byte `'1'` (an error surfaces); with no handle it is a no-op
returning nil. -/
def NotifyReady (pipePresent : Bool) (writeOk : Bool) : NotifyOutcome :=
  if pipePresent then
    if writeOk then { written := some '1', errored := false }
    else { written := none, errored := true }
  else { written := none, errored := false }

-- ## Start (part_010: DaemonManager.Start)

/-- Result delivered on the `ready` channel by the pipe-reading
goroutine, when it wins the race against the timeout. -/
inductive ReadySignal
  | ok
  | invalidByte
  | readError
  deriving DecidableEq, Repr

/-- Outcomes of the OS calls made during one `Start` run, one field per
fallible call site. `ready = none` means the `ReadyTimeout` elapsed
before the goroutine delivered anything. -/
structure StartEnv where
  aliveRecorded : Bool
  oursRecorded : Bool
  removeOk : Bool
  execOk : Bool
  pipeOk : Bool
  spawnOk : Bool
  childPid : Int
  ready : Option ReadySignal
  writeOk : Bool
  deriving DecidableEq, Repr

/-- One constructor per distinct error return of `Start`. -/
inductive StartErr
  | alreadyRunning (pid : Int)
  | pidReadFailed (e : PidErr)
  | execFailed
  | pipeFailed
  | spawnFailed
  | notReady
  | readyTimeout
  | pidWriteFailed
  deriving DecidableEq, Repr

/-- Result of a `Start` run: the returned error, the final PID file, and
whether a child was spawned and whether the `cleanup` helper ran. -/
structure StartResult where
  res : Except StartErr Unit
  fs : FS
  launched : Bool
  toreDown : Bool

/-- The part of `Start` after the already-running check: spawn the child,
close the parent's pipe write end, race the readiness read against the
timeout, and on success write the PID file; `cleanup` tears the child
down on every failure after the spawn. -/
def startSpawnPhase (fs : FS) (env : StartEnv) : StartResult :=
  if !env.execOk then
    { res := .error .execFailed, fs := fs, launched := false, toreDown := false }
  else if !env.pipeOk then
    { res := .error .pipeFailed, fs := fs, launched := false, toreDown := false }
  else if !env.spawnOk then
    { res := .error .spawnFailed, fs := fs, launched := false, toreDown := false }
  else
    match env.ready with
    | some .ok =>
        if env.writeOk then
          { res := .ok (), fs := writePID env.childPid, launched := true, toreDown := false }
        else
          { res := .error .pidWriteFailed, fs := fs, launched := true, toreDown := true }
    | some .invalidByte =>
        { res := .error .notReady, fs := fs, launched := true, toreDown := true }
    | some .readError =>
        { res := .error .notReady, fs := fs, launched := true, toreDown := true }
    | none =>
        { res := .error .readyTimeout, fs := fs, launched := true, toreDown := true }

/-- `DaemonManager.Start` under the exclusive lock: read the PID record;
a live record of our binary is `ErrAlreadyRunning`; a stale record is
removed (failure to remove is non-fatal) before spawning. -/
def Start (fs : FS) (env : StartEnv) : StartResult :=
  match readPID fs with
  | .ok pid =>
      if env.aliveRecorded && env.oursRecorded then
        { res := .error (.alreadyRunning pid), fs := fs, launched := false, toreDown := false }
      else
        startSpawnPhase (if env.removeOk then none else fs) env
  | .error .notRunning => startSpawnPhase fs env
  | .error e =>
      { res := .error (.pidReadFailed e), fs := fs, launched := false, toreDown := false }

-- ## Status (part_010: DaemonManager.Status)

/-- Outcome of opening the lock file read-only for the shared lock. -/
inductive LockOpen
  | opened
  | notExist
  | otherErr
  deriving DecidableEq, Repr

/-- Outcomes of the OS calls made during one `Status` run. -/
structure StatusEnv where
  lockOpen : LockOpen
  flockOk : Bool
  aliveRecorded : Bool
  oursRecorded : Bool
  healthOk : Bool
  deriving DecidableEq, Repr

/-- The classification `Status` reports (the returned string together
with its error value collapsed into one constructor each). -/
inductive StatusReport
  | notRunning
  | staleNotRunning (pid : Int)
  | wrongBinary (pid : Int)
  | runningHealthy (pid : Int)
  | runningUnhealthy (pid : Int)
  | running (pid : Int)
  | unknown
  deriving DecidableEq, Repr

/-- The body of `Status` after lock handling: read the record, classify.
The stale branch only reports (`ErrStalePID`); it does not touch the
file. -/
def statusBody (cfg : Config) (fs : FS) (env : StatusEnv) : StatusReport :=
  match readPID fs with
  | .error .notRunning => .notRunning
  | .error _ => .unknown
  | .ok pid =>
      if !env.aliveRecorded then .staleNotRunning pid
      else if !env.oursRecorded then .wrongBinary pid
      else if cfg.HealthCheckURL ≠ [] then
        if env.healthOk then .runningHealthy pid else .runningUnhealthy pid
      else .running pid

/-- `DaemonManager.Status`: shared lock, then classify; returns the
report and the (never modified) PID file state. -/
def Status (cfg : Config) (fs : FS) (env : StatusEnv) : StatusReport × FS :=
  match env.lockOpen with
  | .otherErr => (.unknown, fs)
  | .notExist =>
      match fs with
      | none => (.notRunning, fs)
      | some _ => (statusBody cfg fs env, fs)
  | .opened =>
      if env.flockOk then (statusBody cfg fs env, fs) else (.unknown, fs)

-- ## Stop (part_010: DaemonManager.Stop)

/-- Outcome of `process.Signal(syscall.SIGTERM)`. -/
inductive SignalRes
  | ok
  | processDone
  | otherErr
  deriving DecidableEq, Repr

/-- Outcomes of the OS calls made during one `Stop` run. `exitsInTime`
says whether the 200ms liveness poll observes the process dead before
`StopTimeout` elapses. -/
structure StopEnv where
  findOk : Bool
  aliveRecorded : Bool
  oursRecorded : Bool
  sigTerm : SignalRes
  exitsInTime : Bool
  removeOk : Bool
  deriving DecidableEq, Repr

/-- One constructor per distinct error return of `Stop`. -/
inductive StopErr
  | pidReadFailed (e : PidErr)
  | wrongBinary (pid : Int)
  | signalFailed (pid : Int)
  | stopTimeout (pid : Int)
  | removeFailed
  deriving DecidableEq, Repr

/-- Result of a `Stop` run. -/
structure StopResult where
  res : Except StopErr Unit
  fs : FS

/-- `DaemonManager.Stop` under the exclusive lock: idempotent on a
missing record; a dead recorded process has its record removed and Stop
succeeds; a live foreign process is refused; otherwise SIGTERM, then a
liveness poll raced against `StopTimeout` — on exit the record is
removed, on timeout the error is returned with the record untouched. -/
def Stop (fs : FS) (env : StopEnv) : StopResult :=
  match readPID fs with
  | .error .notRunning => { res := .ok (), fs := fs }
  | .error e => { res := .error (.pidReadFailed e), fs := fs }
  | .ok pid =>
      if !env.findOk || !env.aliveRecorded then
        { res := .ok (), fs := if env.removeOk then none else fs }
      else if !env.oursRecorded then
        { res := .error (.wrongBinary pid), fs := fs }
      else
        match env.sigTerm with
        | .processDone => { res := .ok (), fs := if env.removeOk then none else fs }
        | .otherErr => { res := .error (.signalFailed pid), fs := fs }
        | .ok =>
            if env.exitsInTime then
              if env.removeOk then { res := .ok (), fs := none }
              else { res := .error .removeFailed, fs := fs }
            else
              { res := .error (.stopTimeout pid), fs := fs }

-- ## Helper lemmas about Start shared by several results

theorem startSpawnPhase_spec (fs : FS) (env : StartEnv) :
    ((startSpawnPhase fs env).res = .ok () →
      env.spawnOk = true ∧ env.ready = some .ok ∧ env.writeOk = true ∧
      (startSpawnPhase fs env).fs = writePID env.childPid ∧
      (startSpawnPhase fs env).toreDown = false)
    ∧ ((startSpawnPhase fs env).res ≠ .ok () →
      (startSpawnPhase fs env).fs = fs ∧
      ((startSpawnPhase fs env).launched = true →
        (startSpawnPhase fs env).toreDown = true)) := by
  unfold startSpawnPhase
  rcases env with ⟨a, o, rm, ex, pi, sp, cp, rd, wr⟩
  cases rd with
  | none => cases ex <;> cases pi <;> cases sp <;> cases wr <;> simp_all
  | some s =>
    cases s <;> cases ex <;> cases pi <;> cases sp <;> cases wr <;> simp_all

theorem start_ok_fields (fs : FS) (env : StartEnv)
    (h : (Start fs env).res = .ok ()) :
    env.spawnOk = true ∧ env.ready = some .ok ∧ env.writeOk = true ∧
    (Start fs env).fs = writePID env.childPid ∧
    (Start fs env).toreDown = false := by
  rcases hr : readPID fs with e | pid
  · cases e
    case notRunning =>
      simp only [Start, hr] at h ⊢
      exact (startSpawnPhase_spec fs env).1 h
    case parseError => simp [Start, hr] at h
    case nonPositive => simp [Start, hr] at h
  · by_cases hao : (env.aliveRecorded && env.oursRecorded) = true
    · simp [Start, hr, hao] at h
    · simp only [Start, hr] at h ⊢
      rw [if_neg hao] at h ⊢
      exact (startSpawnPhase_spec _ env).1 h

theorem start_fail_fields (fs : FS) (env : StartEnv)
    (hl : (Start fs env).launched = true)
    (hne : (Start fs env).res ≠ .ok ()) :
    (Start fs env).toreDown = true ∧
    ((Start fs env).fs = fs ∨ (Start fs env).fs = none) := by
  rcases hr : readPID fs with e | pid
  · cases e
    case notRunning =>
      simp only [Start, hr] at hl hne ⊢
      obtain ⟨hfs, htd⟩ := (startSpawnPhase_spec fs env).2 hne
      exact ⟨htd hl, .inl hfs⟩
    case parseError => simp [Start, hr] at hl
    case nonPositive => simp [Start, hr] at hl
  · by_cases hao : (env.aliveRecorded && env.oursRecorded) = true
    · simp [Start, hr, hao] at hl
    · simp only [Start, hr] at hl hne ⊢
      rw [if_neg hao] at hl hne ⊢
      obtain ⟨hfs, htd⟩ := (startSpawnPhase_spec _ env).2 hne
      refine ⟨htd hl, ?_⟩
      rw [hfs]
      by_cases hrm : env.removeOk = true
      · rw [if_pos hrm]
        exact .inr rfl
      · rw [if_neg hrm]
        exact .inl rfl

theorem start_on_recorded_running (fs : FS) (env : StartEnv) (pid : Int)
    (hrec : readPID fs = .ok pid)
    (halive : env.aliveRecorded = true) (hours : env.oursRecorded = true) :
    (Start fs env).res = .error (.alreadyRunning pid) ∧
    (Start fs env).launched = false ∧
    (Start fs env).fs = fs := by
  unfold Start
  rw [hrec]
  simp [halive, hours]

-- ## Claims

/-- Claim C1: in every execution of `Start`, the PID store is written
with the child's PID exactly on the path where the child was spawned,
the single ready-marker byte arrived before the ready timeout, and the
PID write succeeded; on every readiness failure or post-readiness
PID-write failure `Start` returns an error, the child is torn down, and
the PID store does not record that child. -/
theorem start_records_child_only_after_readiness (fs : FS) (env : StartEnv)
    (hfresh : readPID fs ≠ .ok env.childPid) :
    ((Start fs env).res = .ok () →
      env.spawnOk = true ∧ env.ready = some .ok ∧ env.writeOk = true ∧
      (Start fs env).fs = writePID env.childPid ∧
      (Start fs env).toreDown = false)
    ∧ ((Start fs env).launched = true ∧ (Start fs env).res ≠ .ok () →
      (Start fs env).toreDown = true ∧
      readPID (Start fs env).fs ≠ .ok env.childPid) := by
  constructor
  · exact start_ok_fields fs env
  · rintro ⟨hl, hne⟩
    obtain ⟨htd, hfs⟩ := start_fail_fields fs env hl hne
    refine ⟨htd, ?_⟩
    rcases hfs with h | h
    · rw [h]
      exact hfresh
    · rw [h]
      exact fun hcon => Except.noConfusion hcon

/-- A concrete `Start` environment: empty world, spawn and ready succeed
but the PID write fails, exercising the teardown path. -/
def envWriteFails : StartEnv :=
  { aliveRecorded := false
    oursRecorded := false
    removeOk := true
    execOk := true
    pipeOk := true
    spawnOk := true
    childPid := 42
    ready := some .ok
    writeOk := false }

theorem start_records_child_only_after_readiness_witness :
    readPID none ≠ Except.ok (42 : Int) ∧
    (Start none envWriteFails).toreDown = true := by
  refine ⟨fun h => Except.noConfusion h, ?_⟩
  have h := start_records_child_only_after_readiness none envWriteFails
    (fun h => Except.noConfusion h)
  exact (h.2 ⟨rfl, fun hcon => Except.noConfusion hcon⟩).1

/-- A concrete `Start` environment in which the recorded PID probes as
alive and identity-verified. -/
def envRunning : StartEnv :=
  { aliveRecorded := true
    oursRecorded := true
    removeOk := true
    execOk := true
    pipeOk := true
    spawnOk := true
    childPid := 99
    ready := some .ok
    writeOk := true }

/-- Claim C2 counterexample: with a recorded PID 42 that is alive and
identity-verified, `Start` does not return success as the claim states;
it returns the `ErrAlreadyRunning` error. -/
theorem start_on_running_daemon_errors_cex :
    (Start (some ['4', '2']) envRunning).res = .error (.alreadyRunning 42) := rfl

/-- Claim C2 (amended): for every state in which the recorded PID is
alive and identity-verified, `Start` launches no second worker and
leaves the record unchanged, but it reports this via the
`ErrAlreadyRunning` error rather than returning success. -/
theorem start_on_verified_running_no_duplicate (fs : FS) (env : StartEnv) (pid : Int)
    (hrec : readPID fs = .ok pid)
    (halive : env.aliveRecorded = true) (hours : env.oursRecorded = true) :
    (Start fs env).res = .error (.alreadyRunning pid) ∧
    (Start fs env).launched = false ∧
    (Start fs env).fs = fs :=
  start_on_recorded_running fs env pid hrec halive hours

theorem start_on_verified_running_no_duplicate_witness :
    (Start (some ['4', '2']) envRunning).launched = false := by
  have h := start_on_verified_running_no_duplicate (some ['4', '2'])
    envRunning 42 rfl rfl rfl
  exact h.2.1

/-- A minimal configuration whose health-check URL is empty; all other
fields satisfy the eager validation. -/
def cfgDemo : Config :=
  { PIDFilePath := ['/', 'a', '.', 'p', 'i', 'd']
    ReadyTimeout := 5
    StopTimeout := 5
    DaemonRunArgs := [['d'], ['r']]
    HealthCheckURL := [] }

/-- `cfgDemo` with a non-empty health-check URL. -/
def cfgFull : Config := { cfgDemo with HealthCheckURL := ['h'] }

/-- The manager `New` builds from `cfgFull`. -/
def mFull : DaemonManager :=
  { config := cfgFull
    lockFilePath := ['/', 'a', '.', 'p', 'i', 'd', '.', 'l', 'o', 'c', 'k'] }

/-- A `Status` environment whose liveness probe reports the recorded
process dead, with lock handling succeeding. -/
def envStale : StatusEnv :=
  { lockOpen := .opened
    flockOk := true
    aliveRecorded := false
    oursRecorded := true
    healthOk := true }

/-- PID file containing `999999999`. -/
def fsStale : FS := some ['9', '9', '9', '9', '9', '9', '9', '9', '9']

/-- Claim C3 counterexample: with recorded PID 999999999 dead, `Status`
reports the stale classification but does not clear the record, so the
immediately following `Status` call reports Stale again, not
NotRunning. -/
theorem status_stale_no_self_heal_cex :
    (Status cfgDemo fsStale envStale).1 = .staleNotRunning 999999999 ∧
    (Status cfgDemo (Status cfgDemo fsStale envStale).2 envStale).1 =
      .staleNotRunning 999999999 ∧
    (Status cfgDemo (Status cfgDemo fsStale envStale).2 envStale).1 ≠
      .notRunning :=
  ⟨rfl, rfl, by decide⟩

/-- Claim C3 (amended): on a recorded PID whose process is dead,
`Status` reports the Stale classification (with `ErrStalePID`) but
leaves the record in place, so an immediately following `Status` call
reports Stale again rather than NotRunning. -/
theorem status_stale_reports_without_clearing (cfg : Config) (fs : FS)
    (env : StatusEnv) (pid : Int)
    (hrec : readPID fs = .ok pid)
    (hlock : env.lockOpen = .opened) (hflock : env.flockOk = true)
    (hdead : env.aliveRecorded = false) :
    (Status cfg fs env).1 = .staleNotRunning pid ∧
    (Status cfg fs env).2 = fs ∧
    (Status cfg (Status cfg fs env).2 env).1 = .staleNotRunning pid := by
  have hbody : statusBody cfg fs env = .staleNotRunning pid := by
    simp only [statusBody, hrec]
    simp [hdead]
  have hone : Status cfg fs env = (.staleNotRunning pid, fs) := by
    simp only [Status, hlock]
    rw [if_pos hflock, hbody]
  refine ⟨by rw [hone], by rw [hone], ?_⟩
  rw [hone]
  exact congrArg Prod.fst hone

theorem status_stale_reports_without_clearing_witness :
    (Status cfgDemo fsStale envStale).2 = fsStale :=
  (status_stale_reports_without_clearing cfgDemo fsStale envStale
    999999999 rfl rfl rfl rfl).2.1

/-- A `Stop` environment: live verified process that ignores SIGTERM
past the stop timeout. -/
def envStopTimeout : StopEnv :=
  { findOk := true
    aliveRecorded := true
    oursRecorded := true
    sigTerm := .ok
    exitsInTime := false
    removeOk := true }

/-- Claim C4: stopping a live, identity-verified worker that does not
exit within the stop timeout after SIGTERM returns the timeout error
and leaves the PID record unchanged. -/
theorem stop_timeout_keeps_record (fs : FS) (env : StopEnv) (pid : Int)
    (hrec : readPID fs = .ok pid)
    (hfind : env.findOk = true) (halive : env.aliveRecorded = true)
    (hours : env.oursRecorded = true) (hsig : env.sigTerm = .ok)
    (hslow : env.exitsInTime = false) :
    (Stop fs env).res = .error (.stopTimeout pid) ∧ (Stop fs env).fs = fs := by
  simp only [Stop, hrec]
  simp [hfind, halive, hours, hsig, hslow]

theorem stop_timeout_keeps_record_witness :
    (Stop (some ['4', '2']) envStopTimeout).res = .error (.stopTimeout 42) ∧
    (Stop (some ['4', '2']) envStopTimeout).fs = some ['4', '2'] :=
  stop_timeout_keeps_record (some ['4', '2']) envStopTimeout 42
    rfl rfl rfl rfl rfl rfl

/-- Claim C5 counterexample: empty PID-file content does not yield
NotRunning; `strconv.Atoi` fails on the empty string, so `readPID`
reports the invalid-value corruption error. -/
theorem readPID_empty_content_cex :
    readPID (some []) = .error .parseError ∧
    PidErr.parseError ≠ PidErr.notRunning :=
  ⟨rfl, by decide⟩

/-- Claim C5 (amended): `readPID` yields NotRunning exactly on a missing
file; empty or non-numeric content yields the parse corruption error and
non-positive numeric content the distinct non-positive corruption error,
both different from NotRunning. -/
theorem readPID_classification (s : Content) :
    readPID none = .error .notRunning ∧
    (atoi (trimSpace s) = none → readPID (some s) = .error .parseError) ∧
    (∀ pid : Int, atoi (trimSpace s) = some pid → pid ≤ 0 →
      readPID (some s) = .error .nonPositive) ∧
    PidErr.parseError ≠ PidErr.notRunning ∧
    PidErr.nonPositive ≠ PidErr.notRunning := by
  refine ⟨rfl, ?_, ?_, by decide, by decide⟩
  · intro h
    simp [readPID, h]
  · intro pid h hle
    simp only [readPID, h]
    rw [if_pos hle]

theorem readPID_classification_witness :
    readPID (some ['x']) = .error .parseError ∧
    readPID (some ['-', '5']) = .error .nonPositive := by
  constructor
  · exact (readPID_classification ['x']).2.1 rfl
  · exact (readPID_classification ['-', '5']).2.2.1 (-5) rfl (by norm_num)

/-- Claim C6: under any configuration accepted by `New`, reading the PID
store immediately after writing a positive pid returns exactly that pid,
and reading after clearing returns NotRunning. -/
theorem pidstore_roundtrip (cfg : Config) (m : DaemonManager)
    (_hnew : New cfg = .ok m) (pid : Int) (hpid : 0 < pid) :
    readPID (writePID pid) = .ok pid ∧
    readPID removePID = .error .notRunning :=
  ⟨readPID_writePID pid hpid, rfl⟩

theorem pidstore_roundtrip_witness :
    readPID (writePID 7) = .ok 7 ∧
    readPID removePID = .error .notRunning :=
  pidstore_roundtrip cfgFull mFull rfl 7 (by norm_num)

/-- Claim C7: `IsPidAlive` returns false whenever the signal-0 probe
reports any error, including the recently-exited `os.ErrProcessDone`
case, and returns true only when the probe succeeds (for a positive pid
whose process handle was found). -/
theorem isPidAlive_only_probe_ok (pid : Int) (findOk : Bool) (probe : ProbeRes) :
    (probe ≠ .ok → IsPidAlive pid findOk probe = false) ∧
    (IsPidAlive pid findOk probe = true →
      probe = .ok ∧ findOk = true ∧ 0 < pid) := by
  unfold IsPidAlive
  by_cases h : pid ≤ 0
  · rw [if_pos h]
    constructor
    · intro
      rfl
    · intro hcon
      exact absurd hcon (by simp)
  · rw [if_neg h]
    cases findOk <;> cases probe <;> simp_all

theorem isPidAlive_only_probe_ok_witness :
    IsPidAlive 5 true ProbeRes.processDone = false :=
  (isPidAlive_only_probe_ok 5 true ProbeRes.processDone).1 (by decide)

/-- Claim C8 (code bug): `New` rejects an otherwise-valid configuration
whose health-check URL is empty, although the `Config` field documents
the URL as optional and `Status` tolerates an empty URL; the same
configuration with a non-empty URL is accepted. -/
theorem new_rejects_empty_health_url :
    New cfgDemo = .error .emptyHealthURL ∧ New cfgFull = .ok mFull :=
  ⟨rfl, rfl⟩

/-- Claim C9: `NotifyReady` writes the single ready-marker byte `'1'`
when the pipe descriptor is present (and the write succeeds), and is an
error-free no-op writing nothing when the descriptor is absent. -/
theorem notifyReady_marker_or_noop (pipePresent writeOk : Bool) :
    (pipePresent = false →
      NotifyReady pipePresent writeOk = { written := none, errored := false }) ∧
    (pipePresent = true → writeOk = true →
      NotifyReady pipePresent writeOk = { written := some '1', errored := false }) := by
  cases pipePresent <;> cases writeOk <;> simp [NotifyReady]

theorem notifyReady_marker_or_noop_witness :
    NotifyReady false true = { written := none, errored := false } ∧
    NotifyReady true true = { written := some '1', errored := false } :=
  ⟨(notifyReady_marker_or_noop false true).1 rfl,
    (notifyReady_marker_or_noop true true).2 rfl rfl⟩

/-- A `Start` environment for a clean first launch: empty world, every
OS call succeeds, child pid 42. -/
def envLaunch : StartEnv :=
  { aliveRecorded := false
    oursRecorded := false
    removeOk := true
    execOk := true
    pipeOk := true
    spawnOk := true
    childPid := 42
    ready := some .ok
    writeOk := true }

/-- Claim C10: with the two `Start` calls serialized by the exclusive
lock, if the first launched and recorded a worker, the second observes
that record (live and verified) and treats the daemon as already
running: it launches nothing, leaves the record unchanged, and the PID
store afterward names exactly the first worker. -/
theorem concurrent_starts_one_worker (fs : FS) (env₁ env₂ : StartEnv)
    (hfirst : (Start fs env₁).res = .ok ()) (hpid : 0 < env₁.childPid)
    (halive : env₂.aliveRecorded = true) (hours : env₂.oursRecorded = true) :
    (Start (Start fs env₁).fs env₂).res =
      .error (.alreadyRunning env₁.childPid) ∧
    (Start (Start fs env₁).fs env₂).launched = false ∧
    (Start (Start fs env₁).fs env₂).fs = writePID env₁.childPid := by
  obtain ⟨-, -, -, hfs, -⟩ := start_ok_fields fs env₁ hfirst
  rw [hfs]
  have hrec : readPID (writePID env₁.childPid) = .ok env₁.childPid :=
    readPID_writePID _ hpid
  exact start_on_recorded_running _ env₂ _ hrec halive hours

theorem concurrent_starts_one_worker_witness :
    (Start (Start none envLaunch).fs envRunning).launched = false :=
  (concurrent_starts_one_worker none envLaunch envRunning rfl
    (by decide) rfl rfl).2.1

end Daemon
